import Mathlib

/-!
Shallow embedding of the video-jobs-mvp render pipeline.

Sources embedded:
- src/lib/types/index.ts    (data model)
- src/lib/storage.ts        (in-memory job store)
- src/workers/script_llm.ts (script and shot-plan generation with fallback)
- src/workers/sales_pitch_llm.ts (sales pitch with fallback)
- src/lib/qc/index.ts       (performQC)
- src/workers/compose_ffmpeg.ts (generateSubtitles timing core)
- src/workers/generators.ts (getGeneratorAdapter)
- src/api/server.ts         (POST /render handler)
- src/workers/orchestrator.ts (processRenderJob)

External effects (LLM calls, ffmpeg/ffprobe subprocesses, the filesystem,
S3) are modelled as environment-supplied outcomes (`Except String _` for
fallible calls); the embedded functions reproduce the source's control
flow over those outcomes.  JavaScript truthiness of strings/numbers
(absent, empty string, and 0 are falsy) is modelled explicitly by the
`jsOr*` helpers.
-/

set_option linter.unusedVariables false

namespace VideoJobs

/-- JS `a || b` for an optional string: absent and empty are falsy. -/
def jsOrStr (v : Option String) (dflt : String) : String :=
  match v with
  | some s => if s ≠ "" then s else dflt
  | none => dflt

/-- JS `a || b` for an optional number: absent and 0 are falsy. -/
def jsOrNat (v : Option Nat) (dflt : Nat) : Nat :=
  match v with
  | some n => if n ≠ 0 then n else dflt
  | none => dflt

/-- JS truthiness of an optional string value. -/
def optStrTruthy (v : Option String) : Bool :=
  match v with
  | some s => s ≠ ""
  | none => false

/-- JS `String(error)` for a thrown `new Error(msg)` value. -/
def jsErrorString (msg : String) : String := "Error: " ++ msg

/-! ## Data model (src/lib/types/index.ts) -/

inductive RenderStatus
  | QUEUED
  | RUNNING
  | READY
  | ERROR
deriving DecidableEq, Repr

structure BrandConfig where
  primary_hex : String
  secondary_hex : String
  logo_url : Option String
  tone : String
deriving DecidableEq, Repr

/-- The request as the server actually builds it from the untyped JSON
body: the three validated fields can be absent at runtime, so they are
`Option`-typed here even though the TS interface declares them required. -/
structure RenderRequest where
  job_id : Option String
  company : Option String
  job_description : Option String
  brand : Option BrandConfig
  locale : Option String
  scene_count : Option Nat
  duration_s : Option Nat
  engine : Option String
  scenes : Option Nat
  overlay_only : Option Bool
deriving DecidableEq, Repr

structure StructuredBrief where
  title : String
  location : Option String
  seniority : Option String
  employment_type : Option String
  salary : Option String
  remote : Option String
  team : Option String
  impact : String
  top_responsibilities : List String
  requirements : List String
  benefits : List String
  cta_url : Option String
deriving DecidableEq, Repr

structure VideoScript where
  hook : String
  beats : List String
  on_screen_text : List String
  tone : String
  cta : String
  cta_url : Option String
  estimated_duration_s : Nat
deriving DecidableEq, Repr

structure Scene where
  len_s : Nat
  visual_metaphor : String
  overlay : String
deriving DecidableEq, Repr

structure ShotPlan where
  aspect : String
  music_mood : String
  subtitle_style : String
  scenes : List Scene
deriving DecidableEq, Repr

/-- One entry of `job.debug.steps`; `timestamp` (a `Date`) is a clock
value supplied by the environment. -/
structure StepRecord where
  step : String
  duration_ms : Nat
  timestamp : Nat
deriving DecidableEq, Repr

structure DebugInfo where
  cost_cents : Nat
  latency_s : Nat
  steps : List StepRecord
deriving DecidableEq, Repr

structure RenderJob where
  render_id : String
  request : RenderRequest
  status : RenderStatus
  brief : Option StructuredBrief
  script : Option VideoScript
  shot_plan : Option ShotPlan
  sales_pitch : Option (List String)
  scene_files : Option (List String)
  final_video : Option String
  error : Option String
  created_at : Nat
  updated_at : Nat
  debug : DebugInfo
deriving DecidableEq, Repr

/-! ## Job store (src/lib/storage.ts)

The `Map<string, RenderJob>` is modelled as an insertion-ordered
association list; `Store.set` replaces in place or appends, matching
`Map.prototype.set`. -/

abbrev Store := List (String × RenderJob)

def Store.lookup : Store → String → Option RenderJob
  | [], _ => none
  | (k, v) :: rest, id => if k = id then some v else Store.lookup rest id

def Store.set : Store → String → RenderJob → Store
  | [], id, job => [(id, job)]
  | (k, v) :: rest, id, job =>
    if k = id then (id, job) :: rest else (k, v) :: Store.set rest id job

/-- `saveJob` (src/lib/storage.ts line 10). -/
def saveJob (jobs : Store) (job : RenderJob) : Store :=
  Store.set jobs job.render_id job

/-- `updateJobStatus` (src/lib/storage.ts line 19): looks the job up and,
only when it is found, sets status and `updated_at` and — only when the
`error` argument is truthy — the error message.  `now` stands for
`new Date()`. -/
def updateJobStatus (jobs : Store) (renderId : String) (status : RenderStatus)
    (error : Option String) (now : Nat) : Store :=
  match Store.lookup jobs renderId with
  | none => jobs
  | some job =>
    let job1 : RenderJob := { job with status := status, updated_at := now }
    let job2 : RenderJob :=
      match error with
      | some e => if e ≠ "" then { job1 with error := some e } else job1
      | none => job1
    Store.set jobs renderId job2

/-! ## Script and shot-plan generation (src/workers/script_llm.ts) -/

/-- The validation in `generateScript` (line 43):
`!script.hook || !script.beats || script.beats.length !== 3`.
A missing `beats` array and a wrong-length one fail the same check, so
`beats` is modelled as the list the response carried (empty for absent —
an absent array also fails, via the length test). The required length is
the literal 3, not the request's scene count. -/
def scriptStructureValid (s : VideoScript) : Bool :=
  s.hook ≠ "" && s.beats.length == 3

/-- `generateScript` (src/workers/script_llm.ts line 15): forwards the
collaborator's outcome, rejecting structurally invalid responses with
`Error('Invalid script structure')`; any failure propagates to the
caller.  `brief`, `tone` and `duration_s` only shape the prompt. -/
def generateScript (resp : Except String VideoScript) (brief : StructuredBrief)
    (tone : String) (duration_s : Nat) : Except String VideoScript :=
  match resp with
  | .error e => .error e
  | .ok script =>
    if scriptStructureValid script then .ok script
    else .error "Invalid script structure"

def aspirationalMetaphors : List String :=
  ["holographic constellations of code over a sunrise city skyline",
   "dynamic system diagrams morphing into real-world outcomes",
   "modern office with team collaborating, warm natural light"]

def energeticMetaphors : List String :=
  ["fast-paced montage of tech products launching",
   "colorful data visualizations coming to life",
   "vibrant workspace with dynamic team interactions"]

def professionalMetaphors : List String :=
  ["clean modern office spaces with focused professionals",
   "sophisticated data dashboards and analytics",
   "executive team in sleek conference room"]

def wittyMetaphors : List String :=
  ["playful tech metaphors with unexpected twists",
   "clever visual puns on technology concepts",
   "creative team brainstorming with dynamic energy"]

/-- `metaphors[tone] || metaphors.professional` (line 147). -/
def metaphorsFor (tone : String) : List String :=
  if tone = "aspirational" then aspirationalMetaphors
  else if tone = "energetic" then energeticMetaphors
  else if tone = "witty" then wittyMetaphors
  else professionalMetaphors

/-- `generateVisualMetaphor` (line 122); the `beat` parameter is unused
in the source body as well. -/
def generateVisualMetaphor (beat : String) (index : Nat) (tone : String) : String :=
  let toneMetaphors := metaphorsFor tone
  toneMetaphors.getD (index % toneMetaphors.length) ""

/-- `getMusicMood` (line 151). -/
def getMusicMood (tone : String) : String :=
  if tone = "aspirational" then "upbeat cinematic"
  else if tone = "energetic" then "upbeat electronic"
  else if tone = "professional" then "corporate modern"
  else if tone = "witty" then "playful upbeat"
  else "upbeat cinematic"

/-- `makeShotPlanFallback` (line 101): one scene per script beat, each
`Math.floor(duration_s / 3)` seconds long (the divisor is the literal 3),
overlay from `on_screen_text[index] || beat.substring(0, 60)`. -/
def makeShotPlanFallback (script : VideoScript) (duration_s : Nat) (tone : String) : ShotPlan :=
  let sceneDuration := duration_s / 3
  let scenes : List Scene := script.beats.enum.map (fun p =>
    { len_s := sceneDuration
      visual_metaphor := generateVisualMetaphor p.2 p.1 tone
      overlay :=
        let t := script.on_screen_text.getD p.1 ""
        if t ≠ "" then t else p.2.take 60 })
  { aspect := "9:16"
    music_mood := getMusicMood tone
    subtitle_style := "bold_lower_thirds"
    scenes := scenes }

/-- The validation in `generateShotPlan` (line 86):
`!shotPlan.scenes || shotPlan.scenes.length !== 2` — the expected length
is the literal 2 (a missing array also fails, via the length test). -/
def shotPlanStructureValid (sp : ShotPlan) : Bool :=
  sp.scenes.length == 2

/-- `generateShotPlan` (src/workers/script_llm.ts line 57): returns the
collaborator's plan when it is structurally valid, and otherwise (any
collaborator failure, or a scene count other than 2) the local fallback.
Total: no path raises to the caller.  Note the source signature has no
scene-count parameter; the orchestrator's call site passes one as an
extra argument, which JavaScript ignores. -/
def generateShotPlan (resp : Except String ShotPlan) (script : VideoScript)
    (brief : StructuredBrief) (duration_s : Nat) (tone : String) : ShotPlan :=
  match resp with
  | .error _ => makeShotPlanFallback script duration_s tone
  | .ok sp =>
    if shotPlanStructureValid sp then sp
    else makeShotPlanFallback script duration_s tone

/-! ## Sales pitch generation (src/workers/sales_pitch_llm.ts) -/

structure SalesPitchResult where
  segments : List String
  full_pitch : String
deriving DecidableEq, Repr

/-- `generateFallbackSalesPitch`: up to three simple segments built from
the brief, one per requested scene. -/
def generateFallbackSalesPitch (brief : StructuredBrief) (sceneCount : Nat) : SalesPitchResult :=
  let seg1 := brief.title ++ " opportunity at " ++ jsOrStr brief.location "a great company"
  let seg2 := (jsOrStr brief.top_responsibilities.head? "Make an impact").take 60
  let seg3 := (jsOrStr brief.benefits.head? "Join our team").take 60
  let segments :=
    (if 1 ≤ sceneCount then [seg1] else []) ++
    (if 2 ≤ sceneCount then [seg2] else []) ++
    (if 3 ≤ sceneCount then [seg3] else [])
  { segments := segments
    full_pitch := brief.title ++ " role focused on " ++ brief.impact }

/-- `generateSalesPitch`: accepts the collaborator's result only when
`segments.length === sceneCount`; on any failure returns the local
fallback, so this stage never raises. -/
def generateSalesPitch (resp : Except String SalesPitchResult)
    (brief : StructuredBrief) (sceneCount : Nat) : SalesPitchResult :=
  match resp with
  | .error _ => generateFallbackSalesPitch brief sceneCount
  | .ok r =>
    if r.segments.length = sceneCount then r
    else generateFallbackSalesPitch brief sceneCount

/-! ## Quality control (src/lib/qc/index.ts as shipped in lib/, `performQC`) -/

/-- One ffprobe stream record; `fps_num/fps_den` are the two parsed
halves of `r_frame_rate`. -/
structure ProbeStream where
  codec_type : String
  width : Nat
  height : Nat
  fps_num : Nat
  fps_den : Nat
deriving DecidableEq, Repr

/-- The ffprobe metadata `performQC` consumes: `format.duration` plus the
stream list. -/
structure ProbeData where
  duration : Option ℚ
  streams : List ProbeStream
deriving DecidableEq, Repr

structure QCMetrics where
  duration_s : Option ℚ
  resolution : Option String
  fps : Option Int
  audio_present : Option Bool
deriving DecidableEq, Repr

structure QCResult where
  passed : Bool
  issues : List String
  metrics : QCMetrics
deriving DecidableEq, Repr

/-- The empty `metrics` object as it stands when the probe throws. -/
def emptyMetrics : QCMetrics :=
  { duration_s := none, resolution := none, fps := none, audio_present := none }

/-- JS `Math.round`. -/
def jsRound (x : ℚ) : Int := Int.floor (x + 1 / 2)

/-- `performQC`: probes the asset and reports a structured result.  The
whole body sits in a try/catch, so a probe failure yields a failed
result — the function never raises.  Checks, in source order: duration
within import tolerance 1s of the expected duration (skipped when the
probed duration is absent or 0, both JS-falsy), resolution exactly
`1080x1920`, frame rate at least 24. -/
def performQC (probe : Except String ProbeData) (expectedDuration : ℚ) : QCResult :=
  match probe with
  | .error _ =>
    { passed := false
      issues := ["Failed to perform QC checks"]
      metrics := emptyMetrics }
  | .ok metadata =>
    let videoStream := metadata.streams.find? (fun s => s.codec_type = "video")
    let audioStream := metadata.streams.find? (fun s => s.codec_type = "audio")
    let metrics : QCMetrics :=
      { duration_s := metadata.duration
        resolution := videoStream.map (fun s => toString s.width ++ "x" ++ toString s.height)
        fps := videoStream.map (fun s => jsRound ((s.fps_num : ℚ) / (s.fps_den : ℚ)))
        audio_present := some audioStream.isSome }
    let durationIssues : List String :=
      match metrics.duration_s with
      | some d =>
        if d ≠ 0 ∧ |d - expectedDuration| > 1 then
          ["Duration mismatch: expected " ++ toString expectedDuration ++
            "s, got " ++ toString d ++ "s"]
        else []
      | none => []
    let resolutionIssues : List String :=
      if metrics.resolution ≠ some "1080x1920" then
        ["Resolution mismatch: expected 1080x1920, got " ++
          (metrics.resolution.getD "undefined")]
      else []
    let fpsIssues : List String :=
      match metrics.fps with
      | some f => if f ≠ 0 ∧ f < 24 then ["Low FPS: " ++ toString f] else []
      | none => []
    let issues := durationIssues ++ resolutionIssues ++ fpsIssues
    { passed := issues.isEmpty
      issues := issues
      metrics := metrics }

/-! ## Caption timing (src/workers/compose_ffmpeg.ts, `generateSubtitles`)

`getVideoDuration` probes each normalized clip; the successful probe is
modelled as a function from scene index to measured duration. -/

/-- One ASS `Dialogue` event; the source's `end` field is `stop` here
because `end` is reserved in Lean. -/
structure CaptionCue where
  text : String
  start : ℚ
  stop : ℚ
deriving DecidableEq, Repr

/-- The cumulative-timestamp loop of `generateSubtitles` (lines 139-147):
each scene's cue runs from the running total to the running total plus
its own measured duration. -/
def cumTimestampsAux : List ℚ → ℚ → List (ℚ × ℚ)
  | [], _ => []
  | d :: ds, c => (c, c + d) :: cumTimestampsAux ds (c + d)

/-- `scene_count = salesPitchSegments ? salesPitchSegments.length :
script.beats.length` (line 128); a supplied array is truthy even when
empty. -/
def sceneCountOf (salesPitchSegments : Option (List String)) (script : VideoScript) : Nat :=
  match salesPitchSegments with
  | some segs => segs.length
  | none => script.beats.length

/-- The probing loop of `generateSubtitles` (lines 131-136): one
`getVideoDuration` call per scene index, in order. -/
def measuredDurations (probe : Nat → ℚ) (n : Nat) : List ℚ :=
  (List.range n).map probe

/-- The dialogue-line construction of `generateSubtitles` (lines
157-165): one cue per pitch segment (or per beat), whose text is the
pitch segment when pitch segments were supplied and otherwise
`on_screen_text[index] || beat`, and whose offsets come from
`timestamps[index]`. -/
def subtitleTexts (salesPitchSegments : Option (List String))
    (script : VideoScript) : List String :=
  match salesPitchSegments with
  | some segs => segs
  | none => script.beats

/-- `overlayText` for the indexed entry `p`: the pitch segment itself
when pitch segments were supplied, otherwise
`script.on_screen_text[index] || text`. -/
def subtitleOverlayText (salesPitchSegments : Option (List String))
    (script : VideoScript) (p : Nat × String) : String :=
  match salesPitchSegments with
  | some _ => p.2
  | none =>
    let o := script.on_screen_text.getD p.1 ""
    if o ≠ "" then o else p.2

def subtitleCues (salesPitchSegments : Option (List String))
    (script : VideoScript) (probe : Nat → ℚ) : List CaptionCue :=
  let scene_count := sceneCountOf salesPitchSegments script
  let sceneDurations := measuredDurations probe scene_count
  let timestamps := cumTimestampsAux sceneDurations 0
  (subtitleTexts salesPitchSegments script).enum.map (fun p =>
    { text := subtitleOverlayText salesPitchSegments script p
      start := (timestamps.getD p.1 (0, 0)).1
      stop := (timestamps.getD p.1 (0, 0)).2 })

/-! ## Generator adapters (src/workers/generators.ts) -/

inductive GeneratorAdapter
  | TemplateAdapter
  | Sora2Adapter
  | Veo3Adapter
deriving DecidableEq, Repr

/-- `getGeneratorAdapter` (line 90): `switch` on the engine string with
`default` falling through to the template adapter. -/
def getGeneratorAdapter (engine : String) : GeneratorAdapter :=
  if engine = "sora2" then .Sora2Adapter
  else if engine = "veo3" then .Veo3Adapter
  else .TemplateAdapter

/-- The engine string the orchestrator passes to `generateScene`
(orchestrator line 114): `job.request.engine || 'template'`. -/
def orchestratorEngine (requestEngine : Option String) : String :=
  jsOrStr requestEngine "template"

/-- The adapter that ends up generating every scene of a job. -/
def sceneAdapterFor (request : RenderRequest) : GeneratorAdapter :=
  getGeneratorAdapter (orchestratorEngine request.engine)

/-! ## POST /render (src/api/server.ts lines 28-79) -/

/-- The untyped JSON body of a POST /render request; `none` models an
absent field. -/
structure ReqBody where
  job_id : Option String
  company : Option String
  job_description : Option String
  brand : Option BrandConfig
  locale : Option String
  duration_s : Option Nat
  engine : Option String
  scenes : Option Nat
  scene_count : Option Nat
  overlay_only : Option Bool
deriving DecidableEq, Repr

/-- The request object the handler builds (lines 30-39).  Defaults:
locale `en-US`, duration `config.defaults.duration_s = 21`, engine
`veo3`, scenes `config.defaults.scenes = 3`.  The handler copies neither
`scene_count` nor `overlay_only` into the request. -/
def requestOfBody (body : ReqBody) : RenderRequest :=
  { job_id := body.job_id
    company := body.company
    job_description := body.job_description
    brand := body.brand
    locale := some (jsOrStr body.locale "en-US")
    duration_s := some (jsOrNat body.duration_s 21)
    engine := some (jsOrStr body.engine "veo3")
    scenes := some (jsOrNat body.scenes 3)
    scene_count := none
    overlay_only := none }

/-- `r_` followed by the first 12 characters of the dash-stripped UUID
(line 46). -/
def uuidToRenderId (uuid : String) : String :=
  "r_" ++ (uuid.replace "-" "").take 12

inductive HttpResponse
  | accepted (render_id : String)
  | badRequest (msg : String)
deriving DecidableEq, Repr

/-- The POST /render handler: builds the request, answers 400 when any of
`company`, `job_description`, `brand` is JS-falsy, and otherwise saves a
fresh QUEUED job and answers 202 with its id.  `uuid` models `uuidv4()`
and `now` models `new Date()`. -/
def postRender (jobs : Store) (body : ReqBody) (uuid : String) (now : Nat) :
    HttpResponse × Store :=
  let request := requestOfBody body
  if optStrTruthy request.company && optStrTruthy request.job_description
      && request.brand.isSome then
    let render_id := uuidToRenderId uuid
    let job : RenderJob :=
      { render_id := render_id
        request := request
        status := .QUEUED
        brief := none, script := none, shot_plan := none
        sales_pitch := none, scene_files := none, final_video := none
        error := none
        created_at := now, updated_at := now
        debug := { cost_cents := 0, latency_s := 0, steps := [] } }
    (.accepted render_id, saveJob jobs job)
  else
    (.badRequest "Missing required fields", jobs)

/-! ## Orchestrator (src/workers/orchestrator.ts, `processRenderJob`)

The whole body of `processRenderJob` sits in one try/catch whose catch
clause is `updateJobStatus(renderId, 'ERROR', String(error))`.  Because
`getJob` returns the very object stored in the map, every in-place
mutation of the local `job` is immediately visible through the store, so
the run is modelled as a transformation of the single job record; the
`saveJob` calls re-insert the same reference and are identity on that
record.  `trace` records, in order, the statuses the record takes on
during the run (the observable sequence is the creation status followed
by this trace). -/

/-- `estimateCost` (orchestrator line 228): `costs[engine] || 1` — an
unknown engine, and a sora2/veo3 cost of 0 (scene count 0), fall back to
1. -/
def estimateCost (engine : String) (sceneCount : Nat) : Nat :=
  let c : Option Nat :=
    if engine = "template" then some 1
    else if engine = "sora2" then some (50 * sceneCount)
    else if engine = "veo3" then some (40 * sceneCount)
    else none
  jsOrNat c 1

/-- `config.paths.tmp = './tmp'`; `path.join` of it with a file name. -/
def tmpPath (name : String) : String := "./tmp/" ++ name

/-- Outcomes of every external effect one run of `processRenderJob` can
perform.  `stepDur`/`stepTime` supply the wall-clock values recorded in
step records. -/
structure PipelineEnv where
  mkdirTmp : Except String Unit
  mkdirRenders : Except String Unit
  parseResp : Except String StructuredBrief
  salesPitchResp : Except String SalesPitchResult
  scriptResp : Except String VideoScript
  shotPlanResp : Except String ShotPlan
  findExisting : Except String (List String)
  sceneGen : Nat → Except String String
  concatResult : Except String Unit
  overlaysResult : Except String Unit
  endCardResult : Except String Unit
  qcProbe : Except String ProbeData
  s3Configured : Bool
  uploadResp : Except String String
  totalLatency : Nat
  stepDur : String → Nat
  stepTime : String → Nat

/-- The scene-generation loop (orchestrator lines 111-120): scene `i`
then the remaining `k` scenes; the first failure propagates (and is
fatal to the job). -/
def genScenes (gen : Nat → Except String String) : Nat → Nat → Except String (List String)
  | _, 0 => .ok []
  | i, k + 1 =>
    match gen i with
    | .error e => .error e
    | .ok f =>
      match genScenes gen (i + 1) k with
      | .error e => .error e
      | .ok fs => .ok (f :: fs)

/-- In-place `job.status` / `job.error` mutation as performed through
`updateJobStatus` on the aliased record (the wall-clock `updated_at`
write is elided). -/
def setStatusRec (job : RenderJob) (status : RenderStatus) (error : Option String) : RenderJob :=
  let job1 : RenderJob := { job with status := status }
  match error with
  | some e => if e ≠ "" then { job1 with error := some e } else job1
  | none => job1

/-- `job.debug.steps.push({ step, duration_ms, timestamp })`. -/
def pushStep (env : PipelineEnv) (job : RenderJob) (name : String) : RenderJob :=
  { job with debug :=
    { job.debug with steps := job.debug.steps ++
      [{ step := name, duration_ms := env.stepDur name, timestamp := env.stepTime name }] } }

/-- `job.request.brand.tone` (the server guarantees `brand` is present on
every stored job; `""` covers the unreachable absent case). -/
def brandTone (request : RenderRequest) : String :=
  match request.brand with
  | some b => b.tone
  | none => ""

structure RunResult where
  job : RenderJob
  trace : List RenderStatus
deriving Repr

/-- A failure caught before `updateJobStatus(renderId, 'RUNNING')` ran:
the record goes straight from QUEUED to ERROR. -/
def fatalBeforeRunning (job : RenderJob) (e : String) : RunResult :=
  { job := setStatusRec job .ERROR (some (jsErrorString e))
    trace := [.ERROR] }

/-- A failure caught after RUNNING was set. -/
def fatalAfterRunning (job : RenderJob) (e : String) : RunResult :=
  { job := setStatusRec job .ERROR (some (jsErrorString e))
    trace := [.RUNNING, .ERROR] }

/-- `processRenderJob` (orchestrator line 18) for a job present in the
store, as a function of the environment's effect outcomes.  Stage order,
the per-stage step records, the fatal/absorbed classification of each
failure, and the status writes mirror the source. -/
def runPipeline (env : PipelineEnv) (job0 : RenderJob) : RunResult :=
  match env.mkdirTmp with
  | .error e => fatalBeforeRunning job0 e
  | .ok _ =>
  match env.mkdirRenders with
  | .error e => fatalBeforeRunning job0 e
  | .ok _ =>
  -- updateJobStatus(renderId, 'RUNNING')
  let jobR := setStatusRec job0 .RUNNING none
  -- Step 1: parse job description (fatal on failure)
  match env.parseResp with
  | .error e => fatalAfterRunning jobR e
  | .ok brief =>
  let job1 := pushStep env { jobR with brief := some brief } "parse"
  -- Step 2: sales pitch (internal fallback, never fatal)
  let scene_count := jsOrNat job0.request.scene_count 1
  let pitch := generateSalesPitch env.salesPitchResp brief scene_count
  let job2 := pushStep env { job1 with sales_pitch := some pitch.segments } "sales_pitch"
  -- Step 3: script (fatal on failure) and shot plan (never fatal)
  let duration_s := jsOrNat job0.request.duration_s 21
  match generateScript env.scriptResp brief (brandTone job0.request) duration_s with
  | .error e => fatalAfterRunning job2 e
  | .ok script =>
  let shotPlan :=
    generateShotPlan env.shotPlanResp script brief duration_s (brandTone job0.request)
  let job3 := pushStep env { job2 with script := some script, shot_plan := some shotPlan } "script"
  -- Step 4: scene acquisition (fatal on failure)
  match
    (if job0.request.overlay_only.getD false then
      env.findExisting.map (fun fs => ("find_existing", fs))
    else
      (genScenes env.sceneGen 0 shotPlan.scenes.length).map (fun fs => ("generate", fs))) with
  | .error e => fatalAfterRunning job3 e
  | .ok stepFiles =>
  let job4 := pushStep env { job3 with scene_files := some stepFiles.2 } stepFiles.1
  -- Step 5: compose (each transform fatal on failure)
  match env.concatResult with
  | .error e => fatalAfterRunning job4 e
  | .ok _ =>
  match env.overlaysResult with
  | .error e => fatalAfterRunning job4 e
  | .ok _ =>
  match env.endCardResult with
  | .error e => fatalAfterRunning job4 e
  | .ok _ =>
  let finalVideo := tmpPath (job0.render_id ++ "_final.mp4")
  let job5 := pushStep env job4 "compose"
  -- Step 6: QC — result only logged, never gates anything
  let qcResult := performQC env.qcProbe (jsOrNat job0.request.duration_s 21 : Nat)
  let job6 := pushStep env job5 "qc"
  -- Step 7: store the final video; an S3 failure is absorbed into a
  -- local file:// URL, so this step never raises
  let videoUrl :=
    if env.s3Configured then
      match env.uploadResp with
      | .ok url => url
      | .error _ => "file://" ++ finalVideo
    else "file://" ++ finalVideo
  let job7 := pushStep env { job6 with final_video := some videoUrl } "upload"
  let job8 : RenderJob :=
    { job7 with debug :=
      { job7.debug with
        latency_s := env.totalLatency
        cost_cents := estimateCost (jsOrStr job0.request.engine "template")
          shotPlan.scenes.length } }
  -- updateJobStatus(renderId, 'READY'); saveJob re-inserts the record
  let job9 := setStatusRec job8 .READY none
  { job := job9, trace := [.RUNNING, .READY] }

/-- The statuses observable for a job over one run: its status at
creation followed by every status set during the run. -/
def observedStatuses (env : PipelineEnv) (job0 : RenderJob) : List RenderStatus :=
  job0.status :: (runPipeline env job0).trace

/-- The names of the step records on a debug trace. -/
def stepNames (steps : List StepRecord) : List String :=
  steps.map (fun r => r.step)

/-! ## Concrete fixtures used by witnesses and counterexamples -/

def sampleBrand : BrandConfig :=
  { primary_hex := "#0B5FFF", secondary_hex := "#111827",
    logo_url := none, tone := "professional" }

def sampleBrief : StructuredBrief :=
  { title := "Senior Backend Engineer"
    location := some "Berlin"
    seniority := some "Senior"
    employment_type := some "Full-time"
    salary := none
    remote := some "Hybrid"
    team := some "Platform"
    impact := "keep the render fleet fast"
    top_responsibilities := ["Own the render pipeline"]
    requirements := ["TypeScript"]
    benefits := ["Remote budget"]
    cta_url := some "https://example.com/careers" }

/-- A script that passes the source's structural validation (non-empty
hook, exactly 3 beats). -/
def sampleScript : VideoScript :=
  { hook := "Want to ship video at scale?"
    beats := ["We render fast", "You own the pipeline", "Great team"]
    on_screen_text := ["Ship fast", "Own it", "Join us"]
    tone := "professional"
    cta := "Apply now"
    cta_url := some "https://example.com/careers"
    estimated_duration_s := 21 }

/-- A script whose beats array has length 2. -/
def twoBeatScript : VideoScript :=
  { hook := "Ready for a new role?"
    beats := ["Build the product", "Grow with us"]
    on_screen_text := ["Build", "Grow"]
    tone := "professional"
    cta := "Apply"
    cta_url := none
    estimated_duration_s := 14 }

def sampleBody : ReqBody :=
  { job_id := none
    company := some "Acme"
    job_description := some "We need an engineer to own our render pipeline."
    brand := some sampleBrand
    locale := none
    duration_s := none
    engine := some "template"
    scenes := none
    scene_count := none
    overlay_only := none }

def sampleJob : RenderJob :=
  { render_id := "r_123e4567e89b"
    request := requestOfBody sampleBody
    status := .QUEUED
    brief := none, script := none, shot_plan := none
    sales_pitch := none, scene_files := none, final_video := none
    error := none
    created_at := 0, updated_at := 0
    debug := { cost_cents := 0, latency_s := 0, steps := [] } }

/-- An environment in which every fatal-class effect succeeds.  The shot
plan and sales pitch collaborators fail (their failures are absorbed by
local fallbacks) and the QC probe fails (never fatal by design). -/
def okEnv : PipelineEnv :=
  { mkdirTmp := .ok ()
    mkdirRenders := .ok ()
    parseResp := .ok sampleBrief
    salesPitchResp := .error "sales pitch LLM down"
    scriptResp := .ok sampleScript
    shotPlanResp := .error "shot plan LLM down"
    findExisting := .ok []
    sceneGen := fun i => .ok (tmpPath ("r_123e4567e89b_scene" ++ toString i ++ ".mp4"))
    concatResult := .ok ()
    overlaysResult := .ok ()
    endCardResult := .ok ()
    qcProbe := .error "ffprobe exited with code 1"
    s3Configured := false
    uploadResp := .error "credentials not configured"
    totalLatency := 42
    stepDur := fun _ => 0
    stepTime := fun _ => 0 }

/-- `okEnv` with the tmp-directory creation failing. -/
def mkdirFailEnv : PipelineEnv :=
  { okEnv with mkdirTmp := .error "EACCES: permission denied, mkdir" }

/-- `okEnv` with the parse collaborator failing. -/
def parseFailEnv : PipelineEnv :=
  { okEnv with parseResp := .error "No content in LLM response" }

/-- `okEnv` with the script collaborator answering a structurally
well-formed response of 2 beats. -/
def twoBeatEnv : PipelineEnv :=
  { okEnv with scriptResp := .ok twoBeatScript }

/-- `sampleBody` with the `engine` field absent. -/
def sampleBodyNoEngine : ReqBody := { sampleBody with engine := none }

/-- `sampleBody` with `company` present but equal to the empty string. -/
def emptyCompanyBody : ReqBody := { sampleBody with company := some "" }

/-- A stored request carrying an unrecognized, non-empty engine string. -/
def runwayRequest : RenderRequest :=
  { requestOfBody sampleBody with engine := some "runway" }

/-- The per-scene file names `okEnv.sceneGen` produces. -/
def okSceneFiles (i : Nat) : String :=
  tmpPath ("r_123e4567e89b_scene" ++ toString i ++ ".mp4")

/-! ## Shared helper lemmas -/

theorem makeShotPlanFallback_scenes_length (script : VideoScript) (d : Nat) (tone : String) :
    (makeShotPlanFallback script d tone).scenes.length = script.beats.length := by
  simp [makeShotPlanFallback, List.length_map, List.enum_length]

theorem metaphorsFor_length (tone : String) : (metaphorsFor tone).length = 3 := by
  unfold metaphorsFor
  split_ifs <;> rfl

theorem makeShotPlanFallback_scene_mem (script : VideoScript) (d : Nat) (tone : String) :
    ∀ s ∈ (makeShotPlanFallback script d tone).scenes,
      s.len_s = d / 3 ∧ s.visual_metaphor ∈ metaphorsFor tone := by
  intro s hs
  simp only [makeShotPlanFallback, List.mem_map] at hs
  obtain ⟨p, hp, rfl⟩ := hs
  refine ⟨rfl, ?_⟩
  simp only [generateVisualMetaphor]
  have hlt : p.1 % (metaphorsFor tone).length < (metaphorsFor tone).length := by
    rw [metaphorsFor_length]; omega
  rw [List.getD_eq_getElem _ _ hlt]
  exact List.getElem_mem hlt

theorem Store.lookup_set_self (jobs : Store) (id : String) (job : RenderJob) :
    Store.lookup (Store.set jobs id job) id = some job := by
  induction jobs with
  | nil => simp [Store.set, Store.lookup]
  | cons kv rest ih =>
    obtain ⟨k, v⟩ := kv
    by_cases h : k = id
    · simp [Store.set, h, Store.lookup]
    · simp [Store.set, h, Store.lookup, ih]

theorem jsErrorString_ne_empty (e : String) : jsErrorString e ≠ "" := by
  intro h
  have hlen := congrArg String.length h
  rw [jsErrorString, String.length_append] at hlen
  have h7 : ("Error: " : String).length = 7 := rfl
  have h0 : ("" : String).length = 0 := rfl
  omega

theorem genScenes_ok_of (gen : Nat → Except String String) (files : Nat → String)
    (h : ∀ i, gen i = .ok (files i)) : ∀ k i, ∃ fs, genScenes gen i k = .ok fs := by
  intro k
  induction k with
  | zero => exact fun i => ⟨[], rfl⟩
  | succ k ih =>
    intro i
    obtain ⟨fs, hfs⟩ := ih (i + 1)
    exact ⟨files i :: fs, by simp [genScenes, h i, hfs]⟩

/-- Trichotomy of the status writes one run performs: the `[ERROR]`-only
trace occurs exactly under a pre-RUNNING setup (mkdir) failure. -/
theorem runPipeline_trace (env : PipelineEnv) (job0 : RenderJob) :
    ((∃ e, env.mkdirTmp = .error e ∨ env.mkdirRenders = .error e) ∧
      (runPipeline env job0).trace = [.ERROR]) ∨
    (runPipeline env job0).trace = [.RUNNING, .READY] ∨
    (runPipeline env job0).trace = [.RUNNING, .ERROR] := by
  rcases h1 : env.mkdirTmp with e | u
  · exact Or.inl ⟨⟨e, Or.inl rfl⟩, by simp [runPipeline, h1, fatalBeforeRunning]⟩
  rcases h2 : env.mkdirRenders with e | u2
  · exact Or.inl ⟨⟨e, Or.inr rfl⟩, by simp [runPipeline, h1, h2, fatalBeforeRunning]⟩
  right
  rcases h3 : env.parseResp with e | brief
  · right; simp [runPipeline, h1, h2, h3, fatalAfterRunning]
  rcases h4 : generateScript env.scriptResp brief (brandTone job0.request)
      (jsOrNat job0.request.duration_s 21) with e | script
  · right; simp [runPipeline, h1, h2, h3, h4, fatalAfterRunning]
  rcases h5 : job0.request.overlay_only.getD false with _ | _
  · rcases h6 : genScenes env.sceneGen 0
        ((generateShotPlan env.shotPlanResp script brief
          (jsOrNat job0.request.duration_s 21) (brandTone job0.request)).scenes.length)
        with e | fs
    · right; simp [runPipeline, h1, h2, h3, h4, h5, h6, Except.map, fatalAfterRunning]
    rcases h7 : env.concatResult with e | u3
    · right; simp [runPipeline, h1, h2, h3, h4, h5, h6, h7, Except.map, fatalAfterRunning]
    rcases h8 : env.overlaysResult with e | u4
    · right; simp [runPipeline, h1, h2, h3, h4, h5, h6, h7, h8, Except.map, fatalAfterRunning]
    rcases h9 : env.endCardResult with e | u5
    · right
      simp [runPipeline, h1, h2, h3, h4, h5, h6, h7, h8, h9, Except.map, fatalAfterRunning]
    left; simp [runPipeline, h1, h2, h3, h4, h5, h6, h7, h8, h9, Except.map]
  · rcases h6 : env.findExisting with e | fs
    · right; simp [runPipeline, h1, h2, h3, h4, h5, h6, Except.map, fatalAfterRunning]
    rcases h7 : env.concatResult with e | u3
    · right; simp [runPipeline, h1, h2, h3, h4, h5, h6, h7, Except.map, fatalAfterRunning]
    rcases h8 : env.overlaysResult with e | u4
    · right; simp [runPipeline, h1, h2, h3, h4, h5, h6, h7, h8, Except.map, fatalAfterRunning]
    rcases h9 : env.endCardResult with e | u5
    · right
      simp [runPipeline, h1, h2, h3, h4, h5, h6, h7, h8, h9, Except.map, fatalAfterRunning]
    left; simp [runPipeline, h1, h2, h3, h4, h5, h6, h7, h8, h9, Except.map]

/-- Behaviour of a run in which every fatal-class effect succeeds — with
no assumption at all on the QC probe or the upload outcome. -/
theorem runPipeline_success_spec (env : PipelineEnv) (job0 : RenderJob)
    (brief : StructuredBrief) (script : VideoScript) (files : Nat → String)
    (h1 : env.mkdirTmp = .ok ())
    (h2 : env.mkdirRenders = .ok ())
    (h3 : env.parseResp = .ok brief)
    (h4 : env.scriptResp = .ok script)
    (h5 : scriptStructureValid script = true)
    (h6 : job0.request.overlay_only = none)
    (h7 : ∀ i, env.sceneGen i = .ok (files i))
    (h8 : env.concatResult = .ok ())
    (h9 : env.overlaysResult = .ok ())
    (h10 : env.endCardResult = .ok ()) :
    (runPipeline env job0).trace = [.RUNNING, .READY] ∧
    (runPipeline env job0).job.status = .READY ∧
    (runPipeline env job0).job.final_video.isSome = true ∧
    stepNames (runPipeline env job0).job.debug.steps
      = stepNames job0.debug.steps ++
        ["parse", "sales_pitch", "script", "generate", "compose", "qc", "upload"] := by
  have hscript : generateScript env.scriptResp brief (brandTone job0.request)
      (jsOrNat job0.request.duration_s 21) = .ok script := by
    simp [generateScript, h4, h5]
  obtain ⟨fs, hfs⟩ := genScenes_ok_of env.sceneGen files h7
    ((generateShotPlan env.shotPlanResp script brief
      (jsOrNat job0.request.duration_s 21) (brandTone job0.request)).scenes.length) 0
  simp [runPipeline, h1, h2, h3, hscript, h6, hfs, h8, h9, h10, Except.map,
    setStatusRec, pushStep, stepNames, List.map_append]

theorem cumTimestampsAux_eq (ds : List ℚ) (c : ℚ) :
    cumTimestampsAux ds c =
      (List.range ds.length).map
        (fun i => (c + (ds.take i).sum, c + (ds.take (i + 1)).sum)) := by
  induction ds generalizing c with
  | nil => simp [cumTimestampsAux]
  | cons d ds ih =>
    simp [cumTimestampsAux, ih (c + d), List.range_succ_eq_map, List.map_map,
      Function.comp, add_assoc]

theorem cumTimestampsAux_length (ds : List ℚ) (c : ℚ) :
    (cumTimestampsAux ds c).length = ds.length := by
  rw [cumTimestampsAux_eq]; simp

theorem cumTimestampsAux_getLast (ds : List ℚ) (c : ℚ) (m : Nat)
    (h : ds.length = m + 1) :
    ((cumTimestampsAux ds c).getLast?).map Prod.snd = some (c + ds.sum) := by
  rw [cumTimestampsAux_eq, h, List.range_succ, List.map_append, List.map_singleton,
    List.getLast?_concat]
  simp only [Option.map_some']
  rw [← h, List.take_length]

theorem timing_map_enumFrom (F : Nat × String → String) (texts : List String)
    (ts : List (ℚ × ℚ)) (k : Nat) (h : k + texts.length = ts.length) :
    ((texts.enumFrom k).map (fun p =>
      ({ text := F p
         start := (ts.getD p.1 (0, 0)).1
         stop := (ts.getD p.1 (0, 0)).2 } : CaptionCue))).map
        (fun cu => (cu.start, cu.stop)) = ts.drop k := by
  induction texts generalizing k with
  | nil =>
    simp only [List.length_nil, Nat.add_zero] at h
    simp [h, List.drop_length]
  | cons t rest ih =>
    simp only [List.length_cons] at h
    have hk : k < ts.length := by omega
    have h2 : (k + 1) + rest.length = ts.length := by omega
    simp only [List.enumFrom, List.map_cons]
    rw [ih (k + 1) h2]
    rw [List.drop_eq_getElem_cons hk]
    simp [List.getD_eq_getElem, hk]

/-! ## Claim C1 -/

/-- Claim C1, counterexample to the claim as stated: when the tmp-directory
creation (`await mkdir`, orchestrator line 25, inside the try block and
before `updateJobStatus(renderId, 'RUNNING')` on line 33) fails, the job
goes straight from QUEUED to ERROR: the terminal state is reached without
RUNNING ever being set, so the observable sequence is not
QUEUED→RUNNING→terminal. -/
theorem c1_counterexample :
    observedStatuses mkdirFailEnv sampleJob = [.QUEUED, .ERROR] ∧
    RenderStatus.RUNNING ∉ observedStatuses mkdirFailEnv sampleJob := by
  refine ⟨rfl, by decide⟩

/-- Claim C1, amended: for every job that starts QUEUED, the observable
status sequence is QUEUED→RUNNING→READY, or QUEUED→RUNNING→ERROR, or —
only when one of the two pre-stage `mkdir` setup calls fails before
RUNNING is set — QUEUED→ERROR.  In every case RUNNING (when present)
precedes all terminal states, exactly one terminal state occurs, and it
is last, so no transition leaves a terminal state. -/
theorem c1_theorem (env : PipelineEnv) (job0 : RenderJob)
    (h : job0.status = .QUEUED) :
    observedStatuses env job0 = [.QUEUED, .RUNNING, .READY] ∨
    observedStatuses env job0 = [.QUEUED, .RUNNING, .ERROR] ∨
    ((∃ e, env.mkdirTmp = .error e ∨ env.mkdirRenders = .error e) ∧
      observedStatuses env job0 = [.QUEUED, .ERROR]) := by
  unfold observedStatuses
  rw [h]
  rcases runPipeline_trace env job0 with ⟨hm, ht⟩ | ht | ht
  · exact Or.inr (Or.inr ⟨hm, by rw [ht]⟩)
  · exact Or.inl (by rw [ht])
  · exact Or.inr (Or.inl (by rw [ht]))

/-- Claim C1, witness: the amended theorem applied to the all-success
environment and the sample QUEUED job. -/
theorem c1_witness :
    sampleJob.status = .QUEUED ∧
    (observedStatuses okEnv sampleJob = [.QUEUED, .RUNNING, .READY] ∨
     observedStatuses okEnv sampleJob = [.QUEUED, .RUNNING, .ERROR] ∨
     ((∃ e, okEnv.mkdirTmp = .error e ∨ okEnv.mkdirRenders = .error e) ∧
       observedStatuses okEnv sampleJob = [.QUEUED, .ERROR])) :=
  ⟨rfl, c1_theorem okEnv sampleJob rfl⟩

/-! ## Claim C2 -/

/-- Claim C2, counterexample to the claim as stated: the API never copies
`scene_count` into the stored request, so the orchestrator's requested
scene count defaults to 1; yet when the shot-plan collaborator fails,
`generateShotPlan` returns the fallback plan, which has one scene per
script beat — 3 scenes, not 1. -/
theorem c2_counterexample :
    (requestOfBody sampleBody).scene_count = none ∧
    jsOrNat (requestOfBody sampleBody).scene_count 1 = 1 ∧
    (generateShotPlan (.error "LLM unavailable") sampleScript sampleBrief 21
      "professional").scenes.length = 3 ∧
    (3 : Nat) ≠ 1 := by
  refine ⟨rfl, rfl, rfl, by decide⟩

/-- Claim C2, amended: after planning completes, the plan has exactly 2
scenes when the collaborator returned a structurally valid plan (the
validation threshold is the literal 2), and exactly `script.beats.length`
scenes (3 for every script that passed script validation) when the
fallback was taken; the request's scene count plays no role in either
case. -/
theorem c2_theorem (resp : Except String ShotPlan) (script : VideoScript)
    (brief : StructuredBrief) (duration_s : Nat) (tone : String) :
    (generateShotPlan resp script brief duration_s tone).scenes.length =
      match resp with
      | .ok sp => if sp.scenes.length = 2 then 2 else script.beats.length
      | .error _ => script.beats.length := by
  cases resp with
  | error e =>
    simpa [generateShotPlan] using makeShotPlanFallback_scenes_length script duration_s tone
  | ok sp =>
    by_cases h : sp.scenes.length = 2
    · simp [generateShotPlan, shotPlanStructureValid, h]
    · simp [generateShotPlan, shotPlanStructureValid, h,
        makeShotPlanFallback_scenes_length]

/-! ## Claim C3 -/

/-- Claim C3, counterexample to the claim as stated: for a requested
scene count of 2, a collaborator response whose beats array has length 2
— i.e. equal to the requested count, hence not "structurally invalid" in
the claim's sense — still makes `generateScript` fail, because the code
validates against the literal 3, not the requested count. -/
theorem c3_counterexample :
    jsOrNat (some 2) 1 = 2 ∧
    twoBeatScript.beats.length = 2 ∧
    twoBeatScript.hook ≠ "" ∧
    generateScript (.ok twoBeatScript) sampleBrief "professional" 14 =
      .error "Invalid script structure" := by
  refine ⟨rfl, rfl, by decide, rfl⟩

/-- Claim C3, amended: the script stage succeeds exactly when the
collaborator responded and the response has a non-empty hook and exactly
3 beats (the fixed beat count, independent of the requested scene
count); a structurally invalid response is fatal — the job ends ERROR
with `String(Error('Invalid script structure'))` attached, the status
trace is RUNNING→ERROR, and the pipeline halts: only the parse and
sales-pitch step records exist, nothing later ran. -/
theorem c3_theorem (resp : Except String VideoScript) (brief0 : StructuredBrief)
    (tone : String) (d : Nat) (env : PipelineEnv) (job0 : RenderJob)
    (brief : StructuredBrief) (s : VideoScript)
    (h1 : env.mkdirTmp = .ok ()) (h2 : env.mkdirRenders = .ok ())
    (h3 : env.parseResp = .ok brief)
    (h4 : env.scriptResp = .ok s)
    (h5 : scriptStructureValid s = false) :
    ((∃ scr, generateScript resp brief0 tone d = .ok scr) ↔
      (∃ scr, resp = .ok scr ∧ scriptStructureValid scr = true)) ∧
    (runPipeline env job0).job.status = .ERROR ∧
    (runPipeline env job0).job.error = some (jsErrorString "Invalid script structure") ∧
    (runPipeline env job0).trace = [.RUNNING, .ERROR] ∧
    stepNames (runPipeline env job0).job.debug.steps
      = stepNames job0.debug.steps ++ ["parse", "sales_pitch"] := by
  have hgs : generateScript env.scriptResp brief (brandTone job0.request)
      (jsOrNat job0.request.duration_s 21) = .error "Invalid script structure" := by
    simp [generateScript, h4, h5]
  constructor
  · constructor
    · rintro ⟨scr, hscr⟩
      cases hr : resp with
      | error e => rw [hr] at hscr; simp [generateScript] at hscr
      | ok scr2 =>
        rw [hr] at hscr
        by_cases hv : scriptStructureValid scr2
        · exact ⟨scr2, rfl, hv⟩
        · simp [generateScript, hv] at hscr
    · rintro ⟨scr, rfl, hv⟩
      exact ⟨scr, by simp [generateScript, hv]⟩
  · simp only [runPipeline, h1, h2, h3, hgs]
    refine ⟨?_, ?_, ?_, ?_⟩ <;>
      simp [fatalAfterRunning, setStatusRec, jsErrorString_ne_empty, pushStep,
        stepNames, List.map_append]

/-- Claim C3, witness: the amended theorem at the environment whose
script collaborator answers the 2-beat script. -/
theorem c3_witness :
    twoBeatEnv.scriptResp = .ok twoBeatScript ∧
    scriptStructureValid twoBeatScript = false ∧
    (runPipeline twoBeatEnv sampleJob).job.status = .ERROR ∧
    (runPipeline twoBeatEnv sampleJob).job.error
      = some (jsErrorString "Invalid script structure") :=
  ⟨rfl, by decide,
    (c3_theorem (.ok twoBeatScript) sampleBrief "professional" 14 twoBeatEnv sampleJob
      sampleBrief twoBeatScript rfl rfl rfl rfl (by decide)).2.1,
    (c3_theorem (.ok twoBeatScript) sampleBrief "professional" 14 twoBeatEnv sampleJob
      sampleBrief twoBeatScript rfl rfl rfl rfl (by decide)).2.2.1⟩

/-! ## Claim C4 -/

/-- Claim C4, counterexample to the claim as stated: for requested scene
count 2 and total duration 30, the fallback gives every scene
`len_s = Math.floor(30 / 3) = 10`, not `30 / 2 = 15`: the divisor is the
literal 3, not the request's scene count. -/
theorem c4_counterexample :
    jsOrNat (some 2) 1 = 2 ∧
    ((generateShotPlan (.error "generation timeout") sampleScript sampleBrief 30
      "professional").scenes.map (fun s => s.len_s)) = [10, 10, 10] ∧
    (10 : Nat) ≠ 30 / 2 := by
  refine ⟨rfl, rfl, by decide⟩

/-- Claim C4, amended: `generateShotPlan` is total (never raises to its
caller) and returns the deterministic local fallback whenever the
collaborator fails or returns a plan whose scene count differs from the
literal 2; in the fallback every scene's visual description is drawn
from the tone-keyed template table and every scene's `len_s` is the
total duration divided by the fixed beat count 3 (not by the requested
scene count). -/
theorem c4_theorem (resp : Except String ShotPlan) (script : VideoScript)
    (brief : StructuredBrief) (duration_s : Nat) (tone : String)
    (h : ∀ sp, resp = .ok sp → sp.scenes.length ≠ 2) :
    generateShotPlan resp script brief duration_s tone
      = makeShotPlanFallback script duration_s tone ∧
    ∀ s ∈ (makeShotPlanFallback script duration_s tone).scenes,
      s.len_s = duration_s / 3 ∧ s.visual_metaphor ∈ metaphorsFor tone := by
  refine ⟨?_, makeShotPlanFallback_scene_mem script duration_s tone⟩
  cases resp with
  | error e => rfl
  | ok sp =>
    have hne := h sp rfl
    simp [generateShotPlan, shotPlanStructureValid, hne]

/-- Claim C4, witness: the amended theorem at a failing collaborator with
total duration 30 and tone `professional`. -/
theorem c4_witness :
    generateShotPlan (.error "generation timeout") sampleScript sampleBrief 30 "professional"
      = makeShotPlanFallback sampleScript 30 "professional" ∧
    ∀ s ∈ (makeShotPlanFallback sampleScript 30 "professional").scenes,
      s.len_s = 30 / 3 ∧ s.visual_metaphor ∈ metaphorsFor "professional" :=
  c4_theorem (.error "generation timeout") sampleScript sampleBrief 30 "professional"
    (fun sp hsp => Except.noConfusion hsp)

/-! ## Claim C5 -/

/-- Claim C5: `performQC` is total in the embedding (the source wraps its
whole body in try/catch), a probe error yields the structured failed
result with its one-item issue list rather than an exception, and the
orchestrator never gates on the QC result: with every fatal-class stage
succeeding and the QC probe outcome left completely unconstrained (it
may fail), the job still reaches READY with a published final video. -/
theorem c5_theorem (e : String) (d : ℚ) (env : PipelineEnv) (job0 : RenderJob)
    (brief : StructuredBrief) (script : VideoScript) (files : Nat → String)
    (h1 : env.mkdirTmp = .ok ()) (h2 : env.mkdirRenders = .ok ())
    (h3 : env.parseResp = .ok brief) (h4 : env.scriptResp = .ok script)
    (h5 : scriptStructureValid script = true)
    (h6 : job0.request.overlay_only = none)
    (h7 : ∀ i, env.sceneGen i = .ok (files i))
    (h8 : env.concatResult = .ok ()) (h9 : env.overlaysResult = .ok ())
    (h10 : env.endCardResult = .ok ()) :
    performQC (.error e) d =
      { passed := false
        issues := ["Failed to perform QC checks"]
        metrics := emptyMetrics } ∧
    (runPipeline env job0).job.status = .READY ∧
    (runPipeline env job0).job.final_video.isSome = true := by
  obtain ⟨ht, hst, hfv, hsteps⟩ :=
    runPipeline_success_spec env job0 brief script files h1 h2 h3 h4 h5 h6 h7 h8 h9 h10
  exact ⟨rfl, hst, hfv⟩

/-- Claim C5, witness: the theorem at `okEnv`, whose QC probe does fail —
the run still ends READY with a final video. -/
theorem c5_witness :
    okEnv.qcProbe = .error "ffprobe exited with code 1" ∧
    (performQC (.error "probe failed") 21).passed = false ∧
    (runPipeline okEnv sampleJob).job.status = .READY ∧
    (runPipeline okEnv sampleJob).job.final_video.isSome = true := by
  have h := c5_theorem "probe failed" 21 okEnv sampleJob sampleBrief sampleScript
    okSceneFiles rfl rfl rfl rfl (by decide) rfl (fun i => rfl) rfl rfl rfl
  exact ⟨rfl, by simp [h.1], h.2.1, h.2.2⟩

/-! ## Claim C6 -/

/-- Claim C6: for the measured per-scene durations obtained by probing
the normalized clips, `generateSubtitles` emits exactly one caption cue
per scene, in original scene order; cue i spans from the sum of the
first i measured durations to the sum of the first i+1; and the last
cue's end time is exactly the sum of all measured durations (the planned
total duration appears nowhere in the computation). -/
theorem c6_theorem (segs : Option (List String)) (script : VideoScript)
    (probe : Nat → ℚ) (m : Nat) (hm : sceneCountOf segs script = m + 1) :
    (subtitleCues segs script probe).length = sceneCountOf segs script ∧
    (subtitleCues segs script probe).map (fun cu => (cu.start, cu.stop)) =
      (List.range (sceneCountOf segs script)).map
        (fun i =>
          (((measuredDurations probe (sceneCountOf segs script)).take i).sum,
           ((measuredDurations probe (sceneCountOf segs script)).take (i + 1)).sum)) ∧
    ((subtitleCues segs script probe).getLast?).map (fun cu => cu.stop) =
      some (measuredDurations probe (sceneCountOf segs script)).sum := by
  have hds : (measuredDurations probe (sceneCountOf segs script)).length
      = sceneCountOf segs script := by
    simp [measuredDurations]
  have htexts : (subtitleTexts segs script).length = sceneCountOf segs script := by
    cases segs <;> simp [subtitleTexts, sceneCountOf]
  have hts_len :
      (cumTimestampsAux (measuredDurations probe (sceneCountOf segs script)) 0).length
        = sceneCountOf segs script := by
    rw [cumTimestampsAux_length, hds]
  have hmap : (subtitleCues segs script probe).map (fun cu => (cu.start, cu.stop)) =
      cumTimestampsAux (measuredDurations probe (sceneCountOf segs script)) 0 := by
    simpa [subtitleCues] using
      timing_map_enumFrom (subtitleOverlayText segs script) (subtitleTexts segs script)
        (cumTimestampsAux (measuredDurations probe (sceneCountOf segs script)) 0) 0
        (by rw [Nat.zero_add, htexts, hts_len])
  refine ⟨?_, ?_, ?_⟩
  · simp [subtitleCues, List.length_map, List.enum_length, htexts]
  · rw [hmap, cumTimestampsAux_eq, hds]
    simp
  · have h1 := congrArg (fun l => l.getLast?) hmap
    simp only [List.getLast?_map] at h1
    have h2 := cumTimestampsAux_getLast
      (measuredDurations probe (sceneCountOf segs script)) 0 m (by rw [hds, hm])
    rw [← h1, Option.map_map] at h2
    simpa [Function.comp] using h2

/-- Claim C6, witness: two sales-pitch segments and measured durations
7.5s and 6.25s — the last cue ends at 13.75s, the measured total. -/
theorem c6_witness :
    sceneCountOf (some ["Great role", "Apply today"]) sampleScript = 1 + 1 ∧
    ((subtitleCues (some ["Great role", "Apply today"]) sampleScript
        (fun i => if i = 0 then 15 / 2 else 25 / 4)).getLast?).map (fun cu => cu.stop)
      = some (measuredDurations (fun i => if i = 0 then 15 / 2 else 25 / 4)
          (sceneCountOf (some ["Great role", "Apply today"]) sampleScript)).sum ∧
    (measuredDurations (fun i => if i = 0 then 15 / 2 else 25 / 4)
        (sceneCountOf (some ["Great role", "Apply today"]) sampleScript)).sum
      = 55 / 4 := by
  refine ⟨rfl,
    (c6_theorem (some ["Great role", "Apply today"]) sampleScript
      (fun i => if i = 0 then 15 / 2 else 25 / 4) 1 rfl).2.2, ?_⟩
  norm_num [measuredDurations, sceneCountOf, List.range_succ]

/-! ## Claim C7 -/

/-- Claim C7, counterexample to the claim as stated: a request whose
engine field is absent does not get the template variant — the server
defaults the field to `veo3` (`req.body.engine || 'veo3'`, server line
37), so the pipeline selects the Veo3 adapter. -/
theorem c7_counterexample :
    sampleBodyNoEngine.engine = none ∧
    (requestOfBody sampleBodyNoEngine).engine = some "veo3" ∧
    sceneAdapterFor (requestOfBody sampleBodyNoEngine) = .Veo3Adapter ∧
    GeneratorAdapter.Veo3Adapter ≠ GeneratorAdapter.TemplateAdapter := by
  refine ⟨rfl, rfl, rfl, by decide⟩

/-- Claim C7, amended: the engine is fixed once per job from the
request.  `getGeneratorAdapter` maps every string other than `sora2` and
`veo3` to the template adapter, and a stored request carrying an
unrecognized non-empty engine string therefore generates every scene
with the template adapter; but a request whose engine field was absent
in the body is defaulted to `veo3` by the server and generates with the
Veo3 adapter. -/
theorem c7_theorem (e : String) (body : ReqBody) (req : RenderRequest)
    (h1 : e ≠ "sora2") (h2 : e ≠ "veo3") (h3 : e ≠ "")
    (h4 : body.engine = none) (h5 : req.engine = some e) :
    getGeneratorAdapter e = .TemplateAdapter ∧
    sceneAdapterFor req = .TemplateAdapter ∧
    sceneAdapterFor (requestOfBody body) = .Veo3Adapter := by
  have hga : getGeneratorAdapter e = .TemplateAdapter := by
    simp [getGeneratorAdapter, h1, h2]
  refine ⟨hga, ?_, ?_⟩
  · simp [sceneAdapterFor, orchestratorEngine, jsOrStr, h5, h3, hga]
  · simp only [sceneAdapterFor, orchestratorEngine, requestOfBody, h4]
    rfl

/-- Claim C7, witness: the amended theorem at the unrecognized engine
string `runway`. -/
theorem c7_witness :
    ("runway" ≠ "sora2") ∧ ("runway" ≠ "veo3") ∧ ("runway" ≠ "") ∧
    sampleBodyNoEngine.engine = none ∧ runwayRequest.engine = some "runway" ∧
    (getGeneratorAdapter "runway" = .TemplateAdapter ∧
     sceneAdapterFor runwayRequest = .TemplateAdapter ∧
     sceneAdapterFor (requestOfBody sampleBodyNoEngine) = .Veo3Adapter) := by
  refine ⟨by decide, by decide, by decide, rfl, rfl, ?_⟩
  exact c7_theorem "runway" sampleBodyNoEngine runwayRequest (by decide) (by decide)
    (by decide) rfl rfl

/-! ## Claim C8 -/

/-- Claim C8, counterexample to the claim as stated: when the parse stage
runs and fails, no step record at all is appended — each
`job.debug.steps.push` sits after its stage's await, so a throwing stage
jumps to the catch block before its record is written.  The job ends
ERROR with an empty debug trace. -/
theorem c8_counterexample :
    parseFailEnv.parseResp = .error "No content in LLM response" ∧
    (runPipeline parseFailEnv sampleJob).job.status = .ERROR ∧
    (runPipeline parseFailEnv sampleJob).job.debug.steps = [] := by
  refine ⟨rfl, rfl, rfl⟩

/-- Claim C8, amended: a stage's wall-clock step record is appended only
when the stage completes without throwing.  A run whose parse
collaborator fails leaves the debug trace exactly as it was; a fully
successful run appends exactly one record per stage, in execution order
(parse, sales_pitch, script, generate, compose, qc, upload — the qc
record regardless of the QC verdict, since the probe outcome is
unconstrained here). -/
theorem c8_theorem (envF envS : PipelineEnv) (jobF jobS : RenderJob) (e : String)
    (briefS : StructuredBrief) (script : VideoScript) (files : Nat → String)
    (hf1 : envF.mkdirTmp = .ok ()) (hf2 : envF.mkdirRenders = .ok ())
    (hf3 : envF.parseResp = .error e)
    (h1 : envS.mkdirTmp = .ok ()) (h2 : envS.mkdirRenders = .ok ())
    (h3 : envS.parseResp = .ok briefS) (h4 : envS.scriptResp = .ok script)
    (h5 : scriptStructureValid script = true)
    (h6 : jobS.request.overlay_only = none)
    (h7 : ∀ i, envS.sceneGen i = .ok (files i))
    (h8 : envS.concatResult = .ok ()) (h9 : envS.overlaysResult = .ok ())
    (h10 : envS.endCardResult = .ok ()) :
    (runPipeline envF jobF).job.debug.steps = jobF.debug.steps ∧
    stepNames (runPipeline envS jobS).job.debug.steps
      = stepNames jobS.debug.steps ++
        ["parse", "sales_pitch", "script", "generate", "compose", "qc", "upload"] := by
  refine ⟨?_, (runPipeline_success_spec envS jobS briefS script files
    h1 h2 h3 h4 h5 h6 h7 h8 h9 h10).2.2.2⟩
  simp [runPipeline, hf1, hf2, hf3, fatalAfterRunning, setStatusRec,
    jsErrorString_ne_empty]

/-- Claim C8, witness: the amended theorem at the parse-failure
environment and the all-success environment. -/
theorem c8_witness :
    parseFailEnv.parseResp = .error "No content in LLM response" ∧
    ((runPipeline parseFailEnv sampleJob).job.debug.steps = sampleJob.debug.steps ∧
     stepNames (runPipeline okEnv sampleJob).job.debug.steps
       = stepNames sampleJob.debug.steps ++
         ["parse", "sales_pitch", "script", "generate", "compose", "qc", "upload"]) :=
  ⟨rfl, c8_theorem parseFailEnv okEnv sampleJob sampleJob "No content in LLM response"
    sampleBrief sampleScript okSceneFiles rfl rfl rfl rfl rfl rfl rfl (by decide) rfl
    (fun i => rfl) rfl rfl rfl⟩

/-! ## Claim C9 -/

/-- Claim C9: `updateJobStatus` on an id absent from the store leaves the
store completely unchanged and never raises: no record is created and no
status or error is written anywhere, so a fatal failure reported against
an id that was never saved (such as the orchestrator's own
`Job not found` error) is silently dropped. -/
theorem c9_theorem (jobs : Store) (renderId : String) (status : RenderStatus)
    (error : Option String) (now : Nat)
    (h : Store.lookup jobs renderId = none) :
    updateJobStatus jobs renderId status error now = jobs := by
  unfold updateJobStatus
  rw [h]

/-- Claim C9, witness: recording a `Job not found` ERROR against an
unknown id over a one-job store changes nothing. -/
theorem c9_witness :
    Store.lookup [("r_123e4567e89b", sampleJob)] "r_0000000000" = none ∧
    updateJobStatus [("r_123e4567e89b", sampleJob)] "r_0000000000" .ERROR
      (some "Error: Job not found") 9 = [("r_123e4567e89b", sampleJob)] :=
  ⟨rfl, c9_theorem [("r_123e4567e89b", sampleJob)] "r_0000000000" .ERROR
    (some "Error: Job not found") 9 rfl⟩

/-! ## Claim C10 -/

/-- Claim C10, counterexample to the claim as stated: a body whose three
required fields are all present, but whose `company` is the empty string,
is rejected with 400 — presence is not enough, the handler tests JS
truthiness (`!request.company`), and `""` is falsy. -/
theorem c10_counterexample :
    emptyCompanyBody.company.isSome = true ∧
    emptyCompanyBody.job_description.isSome = true ∧
    emptyCompanyBody.brand.isSome = true ∧
    postRender [] emptyCompanyBody "123e4567-e89b-12d3-a456-426614174000" 0 =
      (.badRequest "Missing required fields", []) := by
  refine ⟨rfl, rfl, rfl, rfl⟩

/-- Claim C10, amended: a body in which `company`, `job_description` or
`brand` is JS-falsy (absent, or an empty string for the two string
fields) is answered 400 with the store untouched — no job is created;
a body whose `company` and `job_description` are present and non-empty
and whose `brand` is present is answered 202 with a fresh `r_`-prefixed
render id, and a job with that id and status QUEUED is stored before
the response is produced. -/
theorem c10_theorem (jobs : Store) (body invalidBody : ReqBody) (uuid : String)
    (now : Nat)
    (hc : optStrTruthy body.company = true)
    (hj : optStrTruthy body.job_description = true)
    (hb : body.brand.isSome = true)
    (hinv : (optStrTruthy invalidBody.company && optStrTruthy invalidBody.job_description
      && invalidBody.brand.isSome) = false) :
    postRender jobs invalidBody uuid now = (.badRequest "Missing required fields", jobs) ∧
    ∃ job rest,
      postRender jobs body uuid now = (.accepted ("r_" ++ rest), saveJob jobs job) ∧
      job.render_id = "r_" ++ rest ∧
      job.status = .QUEUED ∧
      Store.lookup (postRender jobs body uuid now).2 job.render_id = some job := by
  constructor
  · simp [postRender, requestOfBody, hinv]
  · refine ⟨{ render_id := uuidToRenderId uuid
              request := requestOfBody body
              status := .QUEUED
              brief := none, script := none, shot_plan := none
              sales_pitch := none, scene_files := none, final_video := none
              error := none
              created_at := now, updated_at := now
              debug := { cost_cents := 0, latency_s := 0, steps := [] } },
      (uuid.replace "-" "").take 12, ?_, rfl, rfl, ?_⟩
    · simp [postRender, requestOfBody, hc, hj, hb, uuidToRenderId]
    · simp [postRender, requestOfBody, hc, hj, hb, saveJob, Store.lookup_set_self]

/-- Claim C10, witness: the amended theorem at the valid sample body and
the empty-company body over the empty store. -/
theorem c10_witness :
    optStrTruthy sampleBody.company = true ∧
    (postRender [] emptyCompanyBody "123e4567-e89b-12d3-a456-426614174000" 0
        = (.badRequest "Missing required fields", []) ∧
      ∃ job rest,
        postRender [] sampleBody "123e4567-e89b-12d3-a456-426614174000" 0
          = (.accepted ("r_" ++ rest), saveJob [] job) ∧
        job.render_id = "r_" ++ rest ∧
        job.status = .QUEUED ∧
        Store.lookup (postRender [] sampleBody "123e4567-e89b-12d3-a456-426614174000" 0).2
          job.render_id = some job) :=
  ⟨rfl, c10_theorem [] sampleBody emptyCompanyBody "123e4567-e89b-12d3-a456-426614174000"
    0 rfl rfl rfl rfl⟩

end VideoJobs
